import Mathlib

/-
Verification of the NanoBananaEditor request-proxy layer.

This file gives a shallow embedding of the content-assembly, prompt-building,
response-extraction and error-classification code of the repository
(src/server.ts, src/api/edit.ts, src/api/segment.ts, src/api/_lib/helpers.ts,
src/src/services/apiService.ts, and the serverless generate handler), and
proves the specified properties about it.

Modelling conventions:
  * A JS value that may be undefined is an Option.
  * A JS string is a Lean String; string interpolation becomes explicit append.
  * Code that can throw returns Except String (the thrown message).
  * The outbound call to the external model is a function parameter
    (upstream); each handler also returns the number of times it invoked
    that parameter, so that properties about absent or unrepeated network
    calls are statable.
-/

/-- ContentPart: one element of the content array sent to the external model:
either a text part or an inline-data part carrying a mime type and
base64 payload. -/
inductive ContentPart where
  | text : String → ContentPart
  | inlineData : (mimeType : String) → (data : String) → ContentPart
deriving DecidableEq

/-- Fixed model identifier used by every handler. -/
def modelId : String := "gemini-2.5-flash-image-preview"

/-- Inline PNG image part, as pushed by every handler
(mimeType is always image/png). -/
def imagePart (data : String) : ContentPart := ContentPart.inlineData "image/png" data

/-- JS truthiness of an optional string: undefined and the empty string are
falsy, every other string truthy. -/
def jsTruthyStr : Option String → Bool
  | none => false
  | some s => !(s == "")

/-- Error message thrown by getApiKey (src/api/_lib/helpers.ts line 7,
src/server.ts line 30). -/
def apiKeyErrorMsg : String := "GEMINI_API_KEY is not set in environment variables."

/-- getApiKey (src/api/_lib/helpers.ts lines 4-10, identical in
src/server.ts lines 27-33): reads the environment variable and throws
when it is unset or empty (JS falsiness of the if-guard). -/
def getApiKey (env : Option String) : Except String String :=
  match env with
  | none => Except.error apiKeyErrorMsg
  | some k => if k == "" then Except.error apiKeyErrorMsg else Except.ok k

/-- Mask clause appended by buildEditPrompt when a mask is present
(src/api/_lib/helpers.ts lines 14-16). -/
def maskClause : String :=
  "\n\nIMPORTANT: Apply changes ONLY where the mask image shows white pixels (value 255). Leave all other areas completely unchanged. Respect the mask boundaries precisely and maintain seamless blending at the edges."

/-- Leading fragment of the edit-prompt template, up to the interpolated
instruction. -/
def editPromptPre : String := "Edit this image according to the following instruction: "

/-- Middle fragment of the edit-prompt template, between the instruction and
the optional mask clause. -/
def editPromptMid : String :=
  "\n\nMaintain the original image's lighting, perspective, and overall composition. Make the changes look natural and seamlessly integrated."

/-- Trailing fragment of the edit-prompt template, after the optional mask
clause. -/
def editPromptSuf : String :=
  "\n\nPreserve image quality and ensure the edit looks professional and realistic."

/-- buildEditPrompt (src/api/_lib/helpers.ts lines 13-19): the fixed template
interpolating the instruction, with the mask clause present exactly when
hasMask is true. -/
def buildEditPrompt (instruction : String) (hasMask : Bool) : String :=
  let maskInstruction := if hasMask then maskClause else ""
  editPromptPre ++ instruction ++ editPromptMid ++ maskInstruction ++ editPromptSuf

/-- buildSegmentationPrompt (src/api/_lib/helpers.ts lines 22-24): fixed
template interpolating the query. Literal braces of the JSON example are
written with hex escapes. -/
def buildSegmentationPrompt (query : String) : String :=
  "Analyze this image and create a segmentation mask for: " ++ query ++
  "\n\nReturn a JSON object with this exact structure:\n\x7b\n  \"masks\": [\n    \x7b\n      \"label\": \"description of the segmented object\",\n      \"box_2d\": [x, y, width, height],\n      \"mask\": \"base64-encoded binary mask image\"\n    \x7d\n  ]\n\x7d\n\nOnly segment the specific object or region requested. The mask should be a binary PNG where white pixels (255) indicate the selected region and black pixels (0) indicate the background."

/-- Substring test on strings, modelling the JS String.prototype.includes
used by parseGeminiError, and the informal notion of one string
containing another. -/
def strContains (hay needle : String) : Bool :=
  decide (needle.data <:+: hay.data)

/-- Content of one response candidate: its list of parts. -/
structure Content where
  parts : List ContentPart
deriving DecidableEq

/-- One candidate of the external model's response. -/
structure Candidate where
  content : Content
deriving DecidableEq

/-- Result shape read by the serverless handlers: result.candidates. -/
structure ModelResult where
  candidates : List Candidate
deriving DecidableEq

/-- Result shape read by the standalone server (src/server.ts accesses
result.response.candidates); the extra wrapper is the plumbing difference
between the two deployments. -/
structure SdkResult where
  response : ModelResult
deriving DecidableEq

/-- Message of the TypeError thrown when candidates is empty and the code
reads candidates[0].content. -/
def candidatesTypeErrorMsg : String :=
  "Cannot read properties of undefined, reading content"

/-- Message of the TypeError thrown when parts is empty and the segment
handler reads parts[0].text. -/
def partsTypeErrorMsg : String :=
  "Cannot read properties of undefined, reading text"

/-- Access result.candidates[0].content.parts, which throws a TypeError
when the candidates array is empty. -/
def firstCandidateParts (r : ModelResult) : Except String (List ContentPart) :=
  match r.candidates with
  | [] => Except.error candidatesTypeErrorMsg
  | c :: _ => Except.ok c.content.parts

/-- JS access part.text: some for a text part, none (undefined) for an
inline-data part. -/
def partText : ContentPart → Option String
  | ContentPart.text s => some s
  | ContentPart.inlineData _ _ => none

/-- Access parts[0].text in the segment handlers; throws when parts is
empty, yields undefined (none) when the first part carries inline data. -/
def firstPartText (parts : List ContentPart) : Except String (Option String) :=
  match parts with
  | [] => Except.error partsTypeErrorMsg
  | p :: _ => Except.ok (partText p)

/-- Coercion JSON.parse applies to its argument: undefined becomes the
string undefined. -/
def jsToString : Option String → String
  | some s => s
  | none => "undefined"

/-- JS test part.inlineData used as the filter predicate of the extraction
step. -/
def hasInlineData : ContentPart → Bool
  | ContentPart.inlineData _ _ => true
  | ContentPart.text _ => false

/-- JS access part.inlineData.data used in the map of the extraction step;
the text arm is unreachable after the filter (it would be undefined in JS). -/
def inlineDataOf : ContentPart → String
  | ContentPart.inlineData _ d => d
  | ContentPart.text _ => ""

/-- Image extraction of the serverless generate handler
(serverless generate source, lines 26-28): filter parts with inline data,
map to their base64 payload. -/
def vercelGenerateExtract (parts : List ContentPart) : List String :=
  (parts.filter hasInlineData).map inlineDataOf

/-- Image extraction of the serverless edit handler (src/api/edit.ts
lines 34-36): textually the same filter-and-map as the generate handler. -/
def vercelEditExtract (parts : List ContentPart) : List String :=
  (parts.filter hasInlineData).map inlineDataOf

/-- Image extraction of the standalone server (src/server.ts lines 61-63
and 88-90). -/
def serverExtractImages (parts : List ContentPart) : List String :=
  (parts.filter hasInlineData).map inlineDataOf

/-- Spec-side description of the extraction: exactly the inline-data parts,
in order, projected to their payloads. -/
def partImageData : ContentPart → Option String
  | ContentPart.inlineData _ d => some d
  | ContentPart.text _ => none

/-- Reference-image appending shared by the serverless generate and edit
handlers (src/api/edit.ts lines 18-22, serverless generate lines 14-18):
push one PNG part per reference image when the field is a non-empty
array, otherwise leave the content array unchanged. -/
def appendReferenceImages (contents : List ContentPart) (referenceImages : Option (List String)) : List ContentPart :=
  match referenceImages with
  | none => contents
  | some imgs => if imgs.length > 0 then contents ++ imgs.map imagePart else contents

/-- Content array assembled by the serverless generate handler
(serverless generate source, lines 13-18): one text part holding the raw
prompt, then the reference images. -/
def vercelGenerateContents (prompt : String) (referenceImages : Option (List String)) : List ContentPart :=
  appendReferenceImages [ContentPart.text prompt] referenceImages

/-- Content array assembled by the serverless edit handler
(src/api/edit.ts lines 13-26): the edit prompt (mask flag is the JS
truthiness of maskImage), the original image, the reference images, and
the mask image last when truthy. -/
def vercelEditContents (instruction originalImage : String)
    (referenceImages : Option (List String)) (maskImage : Option String) : List ContentPart :=
  let base := [ContentPart.text (buildEditPrompt instruction (jsTruthyStr maskImage)),
               imagePart originalImage]
  let withRefs := appendReferenceImages base referenceImages
  match maskImage with
  | none => withRefs
  | some m => if m == "" then withRefs else withRefs ++ [imagePart m]

/-- Content array assembled by the serverless segment handler
(src/api/segment.ts lines 13-16): the segmentation prompt then the image. -/
def vercelSegmentContents (image query : String) : List ContentPart :=
  [ContentPart.text (buildSegmentationPrompt query), imagePart image]

/-- Content array assembled by the standalone server's generate route
(src/server.ts lines 54-59). -/
def serverGenerateContents (prompt : String) (referenceImages : Option (List String)) : List ContentPart :=
  match referenceImages with
  | none => [ContentPart.text prompt]
  | some imgs =>
    if imgs.length > 0 then [ContentPart.text prompt] ++ imgs.map imagePart
    else [ContentPart.text prompt]

/-- Content array assembled by the standalone server's edit route
(src/server.ts lines 75-86). -/
def serverEditContents (instruction originalImage : String)
    (referenceImages : Option (List String)) (maskImage : Option String) : List ContentPart :=
  let base := [ContentPart.text (buildEditPrompt instruction (jsTruthyStr maskImage)),
               imagePart originalImage]
  let withRefs :=
    match referenceImages with
    | none => base
    | some imgs => if imgs.length > 0 then base ++ imgs.map imagePart else base
  match maskImage with
  | none => withRefs
  | some m => if m == "" then withRefs else withRefs ++ [imagePart m]

/-- Content array assembled by the standalone server's segment route
(src/server.ts lines 102-105). -/
def serverSegmentContents (image query : String) : List ContentPart :=
  [ContentPart.text (buildSegmentationPrompt query), imagePart image]

/-- Response of the generate and edit endpoints: a 200 JSON body carrying
the images list, or a status code with a JSON error body. -/
inductive ImagesResponse where
  | ok : List String → ImagesResponse
  | err : (status : Nat) → (message : String) → ImagesResponse
deriving DecidableEq

/-- Response of the segment endpoints: a 200 JSON body, a 200 plain send of
the raw text (which is undefined in one unreachable corner, hence the
Option), or a status code with a JSON error body. -/
inductive SegmentResponse (α : Type) where
  | jsonOk : α → SegmentResponse α
  | sendOk : Option String → SegmentResponse α
  | err : (status : Nat) → (message : String) → SegmentResponse α
deriving DecidableEq

/-- HTTP status of a segment response. -/
def segmentStatus {α : Type} : SegmentResponse α → Nat
  | SegmentResponse.jsonOk _ => 200
  | SegmentResponse.sendOk _ => 200
  | SegmentResponse.err n _ => n

/-- Body sent with a rejected non-POST request. -/
def methodNotAllowedMsg : String := "Method Not Allowed"

/-- Serverless generate handler (serverless generate source): reject
non-POST, obtain the key, assemble contents, call upstream once, extract
the images; any thrown error yields a 500 with the raw message. The
second component counts upstream invocations. -/
def vercelGenerateHandler (method : String) (env : Option String)
    (upstream : String → List ContentPart → Except String ModelResult)
    (prompt : String) (referenceImages : Option (List String)) :
    ImagesResponse × Nat :=
  if method ≠ "POST" then (ImagesResponse.err 405 methodNotAllowedMsg, 0)
  else
    match getApiKey env with
    | Except.error msg => (ImagesResponse.err 500 msg, 0)
    | Except.ok _ =>
      match upstream modelId (vercelGenerateContents prompt referenceImages) with
      | Except.error msg => (ImagesResponse.err 500 msg, 1)
      | Except.ok result =>
        match firstCandidateParts result with
        | Except.error msg => (ImagesResponse.err 500 msg, 1)
        | Except.ok parts => (ImagesResponse.ok (vercelGenerateExtract parts), 1)

/-- Serverless edit handler (src/api/edit.ts). -/
def vercelEditHandler (method : String) (env : Option String)
    (upstream : String → List ContentPart → Except String ModelResult)
    (instruction originalImage : String)
    (referenceImages : Option (List String)) (maskImage : Option String) :
    ImagesResponse × Nat :=
  if method ≠ "POST" then (ImagesResponse.err 405 methodNotAllowedMsg, 0)
  else
    match getApiKey env with
    | Except.error msg => (ImagesResponse.err 500 msg, 0)
    | Except.ok _ =>
      match upstream modelId (vercelEditContents instruction originalImage referenceImages maskImage) with
      | Except.error msg => (ImagesResponse.err 500 msg, 1)
      | Except.ok result =>
        match firstCandidateParts result with
        | Except.error msg => (ImagesResponse.err 500 msg, 1)
        | Except.ok parts => (ImagesResponse.ok (vercelEditExtract parts), 1)

/-- Serverless segment handler (src/api/segment.ts): the inner try around
JSON.parse means a parse failure degrades to sending the raw text with
status 200. The parse function models JSON.parse, returning the thrown
message on failure. -/
def vercelSegmentHandler {α : Type} (method : String) (env : Option String)
    (upstream : String → List ContentPart → Except String ModelResult)
    (parse : String → Except String α)
    (image query : String) : SegmentResponse α × Nat :=
  if method ≠ "POST" then (SegmentResponse.err 405 methodNotAllowedMsg, 0)
  else
    match getApiKey env with
    | Except.error msg => (SegmentResponse.err 500 msg, 0)
    | Except.ok _ =>
      match upstream modelId (vercelSegmentContents image query) with
      | Except.error msg => (SegmentResponse.err 500 msg, 1)
      | Except.ok result =>
        match firstCandidateParts result with
        | Except.error msg => (SegmentResponse.err 500 msg, 1)
        | Except.ok parts =>
          match firstPartText parts with
          | Except.error msg => (SegmentResponse.err 500 msg, 1)
          | Except.ok t =>
            match parse (jsToString t) with
            | Except.ok j => (SegmentResponse.jsonOk j, 1)
            | Except.error _ => (SegmentResponse.sendOk t, 1)

/-- Standalone server generate route (src/server.ts lines 50-68): no method
filter (express dispatches POST only), and the upstream result carries the
extra response wrapper. -/
def serverGenerateHandler (env : Option String)
    (upstream : String → List ContentPart → Except String SdkResult)
    (prompt : String) (referenceImages : Option (List String)) :
    ImagesResponse × Nat :=
  match getApiKey env with
  | Except.error msg => (ImagesResponse.err 500 msg, 0)
  | Except.ok _ =>
    match upstream modelId (serverGenerateContents prompt referenceImages) with
    | Except.error msg => (ImagesResponse.err 500 msg, 1)
    | Except.ok result =>
      match firstCandidateParts result.response with
      | Except.error msg => (ImagesResponse.err 500 msg, 1)
      | Except.ok parts => (ImagesResponse.ok (serverExtractImages parts), 1)

/-- Standalone server edit route (src/server.ts lines 71-96). -/
def serverEditHandler (env : Option String)
    (upstream : String → List ContentPart → Except String SdkResult)
    (instruction originalImage : String)
    (referenceImages : Option (List String)) (maskImage : Option String) :
    ImagesResponse × Nat :=
  match getApiKey env with
  | Except.error msg => (ImagesResponse.err 500 msg, 0)
  | Except.ok _ =>
    match upstream modelId (serverEditContents instruction originalImage referenceImages maskImage) with
    | Except.error msg => (ImagesResponse.err 500 msg, 1)
    | Except.ok result =>
      match firstCandidateParts result.response with
      | Except.error msg => (ImagesResponse.err 500 msg, 1)
      | Except.ok parts => (ImagesResponse.ok (serverExtractImages parts), 1)

/-- Standalone server segment route (src/server.ts lines 98-113): there is
no inner try around JSON.parse, so a parse failure propagates to the catch
and produces a 500 with the parse error message. -/
def serverSegmentHandler {α : Type} (env : Option String)
    (upstream : String → List ContentPart → Except String SdkResult)
    (parse : String → Except String α)
    (image query : String) : SegmentResponse α × Nat :=
  match getApiKey env with
  | Except.error msg => (SegmentResponse.err 500 msg, 0)
  | Except.ok _ =>
    match upstream modelId (serverSegmentContents image query) with
    | Except.error msg => (SegmentResponse.err 500 msg, 1)
    | Except.ok result =>
      match firstCandidateParts result.response with
      | Except.error msg => (SegmentResponse.err 500 msg, 1)
      | Except.ok parts =>
        match firstPartText parts with
        | Except.error msg => (SegmentResponse.err 500 msg, 1)
        | Except.ok t =>
          match parse (jsToString t) with
          | Except.ok j => (SegmentResponse.jsonOk j, 1)
          | Except.error msg => (SegmentResponse.err 500 msg, 1)

/-- Five error types of the client-side heuristic classification
(src/src/services/apiService.ts). -/
inductive GeminiErrorType where
  | api_key_invalid
  | quota_exceeded
  | network_error
  | invalid_request
  | unknown_error
deriving DecidableEq

/-- Error value observed by parseGeminiError: the message field (which may
be absent or empty, both falsy), the result of toString, and the optional
status and name fields. -/
structure JsError where
  message : Option String
  str : String
  status : Option Nat
  name : Option String

/-- Classified error returned by parseGeminiError. -/
structure GeminiError where
  type : GeminiErrorType
  message : String
  userMessage : String

/-- JS expression error.message or error.toString()
(src/src/services/apiService.ts line 39). -/
def errMessage (e : JsError) : String :=
  match e.message with
  | some m => if m == "" then e.str else m
  | none => e.str

/-- Credential indicators tested first by parseGeminiError
(src/src/services/apiService.ts lines 42-46). -/
def credIndicator (e : JsError) : Bool :=
  strContains (errMessage e) "API_KEY_INVALID" ||
  strContains (errMessage e) "invalid API key" ||
  strContains (errMessage e) "PERMISSION_DENIED" ||
  e.status == some 401 ||
  e.status == some 403

/-- Quota indicators tested second (lines 55-57). -/
def quotaIndicator (e : JsError) : Bool :=
  strContains (errMessage e) "QUOTA_EXCEEDED" ||
  strContains (errMessage e) "quota exceeded" ||
  e.status == some 429

/-- Network indicators tested third (lines 66-68). -/
def networkIndicator (e : JsError) : Bool :=
  strContains (errMessage e) "network" ||
  strContains (errMessage e) "fetch" ||
  e.name == some "NetworkError"

/-- Invalid-request indicators tested fourth (lines 77-79). -/
def invalidIndicator (e : JsError) : Bool :=
  strContains (errMessage e) "INVALID_ARGUMENT" ||
  strContains (errMessage e) "invalid" ||
  e.status == some 400

/-- parseGeminiError (src/src/services/apiService.ts lines 38-93): the
cascade of the four indicator groups, in source order, falling through to
unknown_error. -/
def parseGeminiError (e : JsError) : GeminiError :=
  if credIndicator e then
    { type := GeminiErrorType.api_key_invalid
      message := errMessage e
      userMessage := "Invalid API key. Please check your Gemini API key in settings." }
  else if quotaIndicator e then
    { type := GeminiErrorType.quota_exceeded
      message := errMessage e
      userMessage := "API quota exceeded. Please wait and try again later, or check your billing in Google AI Studio." }
  else if networkIndicator e then
    { type := GeminiErrorType.network_error
      message := errMessage e
      userMessage := "Network error. Please check your internet connection and try again." }
  else if invalidIndicator e then
    { type := GeminiErrorType.invalid_request
      message := errMessage e
      userMessage := "Invalid request format. Please try again with different settings." }
  else
    { type := GeminiErrorType.unknown_error
      message := errMessage e
      userMessage := "An unexpected error occurred. Please try again." }

/-- Phrase singled out by the spec's example. -/
def maskPhrase : String := "white pixels (value 255)"

/-- Bounded check: no nonempty suffix of x is a prefix of P. -/
def noTailIsPre (x P : List Char) : Bool :=
  x.tails.all fun t => t.isEmpty || !(decide (t <+: P))

/-- Characterization of strContains as list infix. -/
theorem strContains_iff {hay needle : String} :
    strContains hay needle = true ↔ needle.data <:+: hay.data := by
  simp [strContains]

theorem not_prefix_of_noTail {x P p : List Char} (h : noTailIsPre x P = true)
    (hs : p <:+ x) (hne : p ≠ []) : ¬ p <+: P := by
  intro hp
  have hmem : p ∈ x.tails := (List.mem_tails p x).mpr hs
  have hall := List.all_eq_true.mp h p hmem
  simp only [List.isEmpty_eq_true, Bool.or_eq_true, decide_eq_true_eq, Bool.not_eq_true',
    decide_eq_false_iff_not] at hall
  rcases hall with h1 | h2
  · exact hne h1
  · exact h2 hp

/-- Decomposition of an occurrence inside an append: it lies in the left
part, in the right part, or straddles the boundary. -/
theorem infix_split {α : Type} {P x y : List α} (h : P <:+: x ++ y) :
    P <:+: x ∨ P <:+: y ∨
      ∃ p₁ p₂, p₁ ++ p₂ = P ∧ p₁ ≠ [] ∧ p₂ ≠ [] ∧ p₁ <:+ x ∧ p₂ <+: y := by
  obtain ⟨u, v, huv⟩ := h
  rw [List.append_assoc] at huv
  rcases List.append_eq_append_iff.mp huv with ⟨a, ha, hb⟩ | ⟨c, hc, hd⟩
  · rcases List.append_eq_append_iff.mp hb with ⟨b', hb1, hb2⟩ | ⟨c', hc1, hc2⟩
    · exact Or.inl ⟨u, b', by rw [ha, hb1, List.append_assoc]⟩
    · rcases eq_or_ne a [] with rfl | hane
      · refine Or.inr (Or.inl ?_)
        refine ⟨[], v, ?_⟩
        simp at hc1
        rw [hc2, hc1]
        simp
      · rcases eq_or_ne c' [] with rfl | hcne
        · refine Or.inl ?_
          refine ⟨u, [], ?_⟩
          rw [List.append_nil] at hc1
          rw [ha, hc1]
          simp
        · exact Or.inr (Or.inr ⟨a, c', hc1.symm, hane, hcne, ⟨u, ha.symm⟩, ⟨v, hc2.symm⟩⟩)
  · exact Or.inr (Or.inl ⟨c, v, by rw [hd, List.append_assoc]⟩)

/-- Occurrence shape of the edit prompt without a mask. -/
theorem buildEditPrompt_false_data (s : String) :
    (buildEditPrompt s false).data
      = editPromptPre.data ++ (s.data ++ (editPromptMid.data ++ editPromptSuf.data)) := by
  simp [buildEditPrompt, List.append_assoc]

set_option maxRecDepth 40000 in
/-- When the instruction itself avoids the phrase, the maskless prompt does
not contain it: an occurrence could only lie in the instruction, in a fixed
template fragment, or straddle a boundary, and each case is refuted. -/
theorem maskPhrase_not_in_promptFalse {s : String}
    (hs : strContains s maskPhrase = false) :
    strContains (buildEditPrompt s false) maskPhrase = false := by
  rw [Bool.eq_false_iff]
  intro hT
  rw [strContains_iff, buildEditPrompt_false_data] at hT
  have hS : ¬ maskPhrase.data <:+: s.data := by
    rw [Bool.eq_false_iff] at hs
    exact fun h => hs (strContains_iff.mpr h)
  rcases infix_split hT with h1 | h2 | ⟨p₁, p₂, hp, hp₁ne, _, hps, _⟩
  · exact (by decide : ¬ maskPhrase.data <:+: editPromptPre.data) h1
  · rcases infix_split h2 with g1 | g2 | ⟨q₁, q₂, hq, _, hq₂ne, _, hqp⟩
    · exact hS g1
    · exact (by decide : ¬ maskPhrase.data <:+: editPromptMid.data ++ editPromptSuf.data) g2
    · exact not_prefix_of_noTail (by decide) ⟨q₁, hq⟩ hq₂ne hqp
  · exact not_prefix_of_noTail (by decide) hps hp₁ne ⟨p₂, hp⟩

/-- The instruction is embedded verbatim. -/
theorem instruction_in_prompt (s : String) (b : Bool) :
    strContains (buildEditPrompt s b) s = true := by
  rw [strContains_iff]
  exact ⟨editPromptPre.data,
    (editPromptMid ++ (if b then maskClause else "") ++ editPromptSuf).data,
    by simp [buildEditPrompt, List.append_assoc]⟩

/-- The whole mask clause appears when the flag is set. -/
theorem maskClause_in_promptTrue (s : String) :
    strContains (buildEditPrompt s true) maskClause = true := by
  rw [strContains_iff]
  exact ⟨(editPromptPre ++ s ++ editPromptMid).data, editPromptSuf.data,
    by simp [buildEditPrompt, List.append_assoc]⟩

set_option maxRecDepth 40000 in
theorem maskPhrase_in_promptTrue (s : String) :
    strContains (buildEditPrompt s true) maskPhrase = true := by
  rw [strContains_iff]
  have h1 : maskPhrase.data <:+: maskClause.data := by decide
  have h2 : maskClause.data <:+: (buildEditPrompt s true).data :=
    strContains_iff.mp (maskClause_in_promptTrue s)
  exact h1.trans h2

/-- C2 (corrected): the instruction is embedded verbatim; the mask clause is
present whenever hasMask is true; and for instructions that do not
themselves contain the phrase, the phrase appears iff hasMask is true;
the spec's concrete example holds. -/
theorem C2_buildEditPrompt_mask_iff (s : String) (b : Bool) :
    strContains (buildEditPrompt s b) s = true
    ∧ (b = true → strContains (buildEditPrompt s b) maskClause = true)
    ∧ (strContains s maskPhrase = false →
        (strContains (buildEditPrompt s b) maskPhrase = true ↔ b = true))
    ∧ strContains (buildEditPrompt "make the sky purple" true) "make the sky purple" = true
    ∧ strContains (buildEditPrompt "make the sky purple" true) maskPhrase = true := by
  refine ⟨instruction_in_prompt s b, ?_, ?_, instruction_in_prompt _ true,
    maskPhrase_in_promptTrue _⟩
  · rintro rfl
    exact maskClause_in_promptTrue s
  · intro hs
    constructor
    · intro hT
      cases b with
      | false =>
        have hF := maskPhrase_not_in_promptFalse hs
        rw [hT] at hF
        simp at hF
      | true => rfl
    · rintro rfl
      exact maskPhrase_in_promptTrue s

set_option maxRecDepth 40000 in
/-- C2 counterexample: with the phrase itself as instruction and hasMask
false, the output contains the phrase although hasMask is not true, so the
claimed equivalence fails as universally stated. -/
theorem C2_claim_counterexample :
    strContains (buildEditPrompt "white pixels (value 255)" false) "white pixels (value 255)" = true
    ∧ (false : Bool) ≠ true := ⟨by decide, by decide⟩

/-- C2 witness: the amended theorem applied at the spec's example input. -/
theorem C2_buildEditPrompt_mask_iff_witness :
    strContains (buildEditPrompt "make the sky purple" true) maskClause = true
    ∧ strContains (buildEditPrompt "make the sky purple" true) maskPhrase = true :=
  ⟨(C2_buildEditPrompt_mask_iff "make the sky purple" true).2.1 rfl,
   ((C2_buildEditPrompt_mask_iff "make the sky purple" true).2.2.1 (by decide)).mpr rfl⟩

/-- Reference images are appended one PNG part each, also when the list is
empty (the length guard then leaves the array unchanged, which the append
form absorbs). -/
theorem appendReferenceImages_some (contents : List ContentPart) (imgs : List String) :
    appendReferenceImages contents (some imgs) = contents ++ imgs.map imagePart := by
  cases imgs with
  | nil => simp [appendReferenceImages]
  | cons a l => simp [appendReferenceImages]

/-- C1: with N reference images the generate content array is the text part
followed by the N reference parts (N+1 parts); the edit content array is
the edit prompt, the original image, the N reference parts (N+2 parts),
and additionally the mask image last when one is supplied (N+3 parts). -/
theorem C1_content_array_shape (prompt instruction originalImage m : String)
    (imgs : List String) (hm : m ≠ "") :
    vercelGenerateContents prompt (some imgs)
        = ContentPart.text prompt :: imgs.map imagePart
    ∧ (vercelGenerateContents prompt (some imgs)).length = imgs.length + 1
    ∧ vercelEditContents instruction originalImage (some imgs) none
        = ContentPart.text (buildEditPrompt instruction false)
            :: imagePart originalImage :: imgs.map imagePart
    ∧ (vercelEditContents instruction originalImage (some imgs) none).length = imgs.length + 2
    ∧ vercelEditContents instruction originalImage (some imgs) (some m)
        = ContentPart.text (buildEditPrompt instruction true)
            :: imagePart originalImage :: (imgs.map imagePart ++ [imagePart m])
    ∧ (vercelEditContents instruction originalImage (some imgs) (some m)).length
        = imgs.length + 3 := by
  have hbeq : (m == "") = false := by simpa using hm
  have hmask : jsTruthyStr (some m) = true := by simp [jsTruthyStr, hbeq]
  refine ⟨?_, ?_, ?_, ?_, ?_, ?_⟩ <;>
    simp [vercelGenerateContents, vercelEditContents, appendReferenceImages_some,
      hbeq, hmask, jsTruthyStr, List.length_append]

/-- C1 witness: concrete instance with two reference images. -/
theorem C1_content_array_shape_witness :
    (vercelGenerateContents "p" (some ["r1", "r2"])).length = 3
    ∧ (vercelEditContents "i" "o" (some ["r1", "r2"]) none).length = 4
    ∧ (vercelEditContents "i" "o" (some ["r1", "r2"]) (some "mm")).length = 5 :=
  ⟨(C1_content_array_shape "p" "i" "o" "mm" ["r1", "r2"] (by decide)).2.1,
   (C1_content_array_shape "p" "i" "o" "mm" ["r1", "r2"] (by decide)).2.2.2.1,
   (C1_content_array_shape "p" "i" "o" "mm" ["r1", "r2"] (by decide)).2.2.2.2.2⟩

/-- C10: an empty referenceImages list assembles the same content array,
and hence the same handler behavior, as an absent field. -/
theorem C10_empty_refs_eq_absent (prompt instruction originalImage method : String)
    (env : Option String) (maskImage : Option String)
    (upstream : String → List ContentPart → Except String ModelResult) :
    vercelGenerateContents prompt (some []) = vercelGenerateContents prompt none
    ∧ vercelEditContents instruction originalImage (some []) maskImage
        = vercelEditContents instruction originalImage none maskImage
    ∧ vercelGenerateHandler method env upstream prompt (some [])
        = vercelGenerateHandler method env upstream prompt none
    ∧ vercelEditHandler method env upstream instruction originalImage (some []) maskImage
        = vercelEditHandler method env upstream instruction originalImage none maskImage := by
  refine ⟨rfl, ?_, rfl, ?_⟩ <;> cases maskImage <;> rfl

/-- C4: with the key environment variable unset, every handler of both
deployments returns the 500 key error and never invokes the upstream. -/
theorem C4_missing_key_rejects {α : Type}
    (upstream : String → List ContentPart → Except String ModelResult)
    (sup : String → List ContentPart → Except String SdkResult)
    (parse : String → Except String α)
    (prompt instruction originalImage image query : String)
    (referenceImages : Option (List String)) (maskImage : Option String) :
    vercelGenerateHandler "POST" none upstream prompt referenceImages
        = (ImagesResponse.err 500 apiKeyErrorMsg, 0)
    ∧ vercelEditHandler "POST" none upstream instruction originalImage referenceImages maskImage
        = (ImagesResponse.err 500 apiKeyErrorMsg, 0)
    ∧ vercelSegmentHandler "POST" none upstream parse image query
        = (SegmentResponse.err 500 apiKeyErrorMsg, 0)
    ∧ serverGenerateHandler none sup prompt referenceImages
        = (ImagesResponse.err 500 apiKeyErrorMsg, 0)
    ∧ serverEditHandler none sup instruction originalImage referenceImages maskImage
        = (ImagesResponse.err 500 apiKeyErrorMsg, 0)
    ∧ serverSegmentHandler none sup parse image query
        = (SegmentResponse.err 500 apiKeyErrorMsg, 0) :=
  ⟨rfl, rfl, rfl, rfl, rfl, rfl⟩

/-- C9: a non-POST request to any serverless endpoint is answered with 405
Method Not Allowed and the upstream is never invoked. -/
theorem C9_non_post_rejected {α : Type} (method : String) (h : method ≠ "POST")
    (env : Option String)
    (upstream : String → List ContentPart → Except String ModelResult)
    (parse : String → Except String α)
    (prompt instruction originalImage image query : String)
    (referenceImages : Option (List String)) (maskImage : Option String) :
    vercelGenerateHandler method env upstream prompt referenceImages
        = (ImagesResponse.err 405 methodNotAllowedMsg, 0)
    ∧ vercelEditHandler method env upstream instruction originalImage referenceImages maskImage
        = (ImagesResponse.err 405 methodNotAllowedMsg, 0)
    ∧ vercelSegmentHandler method env upstream parse image query
        = (SegmentResponse.err 405 methodNotAllowedMsg, 0) := by
  refine ⟨?_, ?_, ?_⟩ <;>
    simp [vercelGenerateHandler, vercelEditHandler, vercelSegmentHandler, h]

/-- C9 witness: a GET request at concrete arguments. -/
theorem C9_non_post_rejected_witness :
    vercelGenerateHandler "GET" (some "key") (fun _ _ => Except.error "boom") "p" none
      = (ImagesResponse.err 405 methodNotAllowedMsg, 0) :=
  (C9_non_post_rejected "GET" (by decide) (some "key") (fun _ _ => Except.error "boom")
    (fun s => (Except.error s : Except String Nat)) "p" "i" "o" "img" "q" none none).1

/-- C6: the standalone-server and serverless generate handlers assemble the
same content array and, fed the same upstream result (modulo the response
wrapper of the server's SDK), produce the same response. -/
theorem C6_generate_deployments_agree (env : Option String)
    (upstream : String → List ContentPart → Except String ModelResult)
    (prompt : String) (referenceImages : Option (List String)) :
    serverGenerateContents prompt referenceImages
        = vercelGenerateContents prompt referenceImages
    ∧ serverGenerateHandler env (fun mid c => Except.map SdkResult.mk (upstream mid c))
          prompt referenceImages
        = vercelGenerateHandler "POST" env upstream prompt referenceImages := by
  have hc : serverGenerateContents prompt referenceImages
      = vercelGenerateContents prompt referenceImages := by
    cases referenceImages <;> rfl
  refine ⟨hc, ?_⟩
  unfold serverGenerateHandler vercelGenerateHandler
  rw [hc]
  rw [if_neg (by decide : ¬ ("POST" : String) ≠ "POST")]
  cases getApiKey env with
  | error m => rfl
  | ok k =>
    cases h : upstream modelId (vercelGenerateContents prompt referenceImages) with
    | error m => simp [Except.map, h]
    | ok r =>
      simp only [Except.map, h]
      cases firstCandidateParts r <;> rfl

/-- Filter-then-map extraction equals the one-pass description: exactly the
inline-data payloads, in order. -/
theorem extract_eq_filterMap (l : List ContentPart) :
    (l.filter hasInlineData).map inlineDataOf = l.filterMap partImageData := by
  induction l with
  | nil => rfl
  | cons p t ih => cases p <;> simp [hasInlineData, inlineDataOf, partImageData, ih]

/-- C5: generate and edit use the same extraction; it returns exactly the
inline-data payloads in order, text parts contributing nothing, and both
handlers return that list on a successful upstream response. -/
theorem C5_extraction_inline_data (parts ps : List ContentPart) (s k : String)
    (u1 u2 : String → List ContentPart → Except String ModelResult)
    (prompt instruction originalImage : String)
    (referenceImages : Option (List String)) (maskImage : Option String)
    (r : ModelResult) (hk : k ≠ "")
    (hup1 : u1 modelId (vercelGenerateContents prompt referenceImages) = Except.ok r)
    (hup2 : u2 modelId (vercelEditContents instruction originalImage referenceImages maskImage)
        = Except.ok r)
    (hparts : firstCandidateParts r = Except.ok parts) :
    vercelGenerateExtract parts = vercelEditExtract parts
    ∧ vercelGenerateExtract parts = parts.filterMap partImageData
    ∧ vercelEditExtract (ContentPart.text s :: ps) = vercelEditExtract ps
    ∧ vercelGenerateHandler "POST" (some k) u1 prompt referenceImages
        = (ImagesResponse.ok (parts.filterMap partImageData), 1)
    ∧ vercelEditHandler "POST" (some k) u2 instruction originalImage referenceImages maskImage
        = (ImagesResponse.ok (parts.filterMap partImageData), 1) := by
  have hbeq : (k == "") = false := by simpa using hk
  refine ⟨rfl, extract_eq_filterMap parts, ?_, ?_, ?_⟩
  · simp [vercelEditExtract, hasInlineData, List.filter]
  · simp [vercelGenerateHandler, getApiKey, hbeq, hup1, hparts,
      vercelGenerateExtract, extract_eq_filterMap]
  · simp [vercelEditHandler, getApiKey, hbeq, hup2, hparts,
      vercelEditExtract, extract_eq_filterMap]

/-- C5 witness: a concrete response with one text part and two image parts. -/
theorem C5_extraction_inline_data_witness :
    vercelGenerateHandler "POST" (some "key")
        (fun _ _ => Except.ok ⟨[⟨⟨[ContentPart.text "caption", imagePart "AAA", imagePart "BBB"]⟩⟩]⟩)
        "p" none
      = (ImagesResponse.ok ["AAA", "BBB"], 1) :=
  (C5_extraction_inline_data
    [ContentPart.text "caption", imagePart "AAA", imagePart "BBB"] [] "s" "key"
    (fun _ _ => Except.ok ⟨[⟨⟨[ContentPart.text "caption", imagePart "AAA", imagePart "BBB"]⟩⟩]⟩)
    (fun _ _ => Except.ok ⟨[⟨⟨[ContentPart.text "caption", imagePart "AAA", imagePart "BBB"]⟩⟩]⟩)
    "p" "i" "o" none none
    ⟨[⟨⟨[ContentPart.text "caption", imagePart "AAA", imagePart "BBB"]⟩⟩]⟩
    (by decide) rfl rfl rfl).2.2.2.1

/-- C3 (corrected): on a successful upstream call whose first candidate
starts with a text part t, both segment handlers return the parsed JSON
with status 200 when t parses; on a parse failure the serverless handler
still answers 200 with the raw text, while the standalone server handler
answers 500 with the parse error. -/
theorem C3_segment_parse_behavior {α : Type} (k : String)
    (upstream : String → List ContentPart → Except String ModelResult)
    (parse : String → Except String α) (image query : String)
    (r : ModelResult) (t m : String) (rest : List ContentPart) (j : α)
    (hk : k ≠ "")
    (hup : upstream modelId (vercelSegmentContents image query) = Except.ok r)
    (hparts : firstCandidateParts r = Except.ok (ContentPart.text t :: rest)) :
    (parse t = Except.ok j →
      vercelSegmentHandler "POST" (some k) upstream parse image query
          = (SegmentResponse.jsonOk j, 1)
      ∧ serverSegmentHandler (some k)
            (fun mid c => Except.map SdkResult.mk (upstream mid c)) parse image query
          = (SegmentResponse.jsonOk j, 1))
    ∧ (parse t = Except.error m →
      vercelSegmentHandler "POST" (some k) upstream parse image query
          = (SegmentResponse.sendOk (some t), 1)
      ∧ segmentStatus (vercelSegmentHandler "POST" (some k) upstream parse image query).1 = 200
      ∧ serverSegmentHandler (some k)
            (fun mid c => Except.map SdkResult.mk (upstream mid c)) parse image query
          = (SegmentResponse.err 500 m, 1)) := by
  have hbeq : (k == "") = false := by simpa using hk
  have hup' : upstream modelId [ContentPart.text (buildSegmentationPrompt query), imagePart image]
      = Except.ok r := hup
  constructor
  · intro hp
    constructor
    · simp [vercelSegmentHandler, getApiKey, hbeq, hup, hparts, firstPartText,
        partText, jsToString, hp]
    · simp [serverSegmentHandler, serverSegmentContents, vercelSegmentContents,
        getApiKey, hbeq, hup', hparts, firstPartText, partText, jsToString, hp, Except.map]
  · intro hp
    refine ⟨?_, ?_, ?_⟩
    · simp [vercelSegmentHandler, getApiKey, hbeq, hup, hparts, firstPartText,
        partText, jsToString, hp]
    · simp [vercelSegmentHandler, getApiKey, hbeq, hup, hparts, firstPartText,
        partText, jsToString, hp, segmentStatus]
    · simp [serverSegmentHandler, serverSegmentContents, vercelSegmentContents,
        getApiKey, hbeq, hup', hparts, firstPartText, partText, jsToString, hp, Except.map]

/-- C3 counterexample: at a concrete malformed upstream text the standalone
server segment handler answers 500, not 200, refuting the claim for that
handler. -/
theorem C3_claim_counterexample :
    serverSegmentHandler (some "key")
        (fun _ _ => Except.ok ⟨⟨[⟨⟨[ContentPart.text "not json"]⟩⟩]⟩⟩)
        (fun s => (Except.error ("Unexpected token " ++ s) : Except String Nat)) "img" "q"
      = (SegmentResponse.err 500 "Unexpected token not json", 1)
    ∧ segmentStatus (SegmentResponse.err 500 "Unexpected token not json"
        : SegmentResponse Nat) ≠ 200 := by
  refine ⟨rfl, by decide⟩

/-- C3 witness: the amended theorem applied to a parsing and a
non-parsing concrete response text. -/
theorem C3_segment_parse_behavior_witness :
    vercelSegmentHandler "POST" (some "key")
        (fun _ _ => Except.ok ⟨[⟨⟨[ContentPart.text "7"]⟩⟩]⟩)
        (fun s => if s == "7" then Except.ok 7 else Except.error "SyntaxError") "img" "q"
      = (SegmentResponse.jsonOk 7, 1)
    ∧ serverSegmentHandler (some "key")
        (fun mid c => Except.map SdkResult.mk
          ((fun _ _ => Except.ok (⟨[⟨⟨[ContentPart.text "oops"]⟩⟩]⟩ : ModelResult)) mid c))
        (fun s => if s == "7" then Except.ok 7 else Except.error "SyntaxError") "img" "q"
      = (SegmentResponse.err 500 "SyntaxError", 1) :=
  ⟨((C3_segment_parse_behavior "key"
      (fun _ _ => Except.ok ⟨[⟨⟨[ContentPart.text "7"]⟩⟩]⟩)
      (fun s => if s == "7" then Except.ok 7 else Except.error "SyntaxError") "img" "q"
      ⟨[⟨⟨[ContentPart.text "7"]⟩⟩]⟩ "7" "SyntaxError" [] 7
      (by decide) rfl rfl).1 rfl).1,
   ((C3_segment_parse_behavior "key"
      (fun _ _ => Except.ok ⟨[⟨⟨[ContentPart.text "oops"]⟩⟩]⟩)
      (fun s => if s == "7" then Except.ok 7 else Except.error "SyntaxError") "img" "q"
      ⟨[⟨⟨[ContentPart.text "oops"]⟩⟩]⟩ "oops" "SyntaxError" [] 7
      (by decide) rfl rfl).2 rfl).2.2⟩

/-- Upstream-call bound for the serverless generate handler. -/
theorem vercelGenerateHandler_calls_le_one (method : String) (env : Option String)
    (u : String → List ContentPart → Except String ModelResult)
    (prompt : String) (referenceImages : Option (List String)) :
    (vercelGenerateHandler method env u prompt referenceImages).2 ≤ 1 := by
  unfold vercelGenerateHandler
  repeat' split
  all_goals simp

/-- Upstream-call bound for the serverless edit handler. -/
theorem vercelEditHandler_calls_le_one (method : String) (env : Option String)
    (u : String → List ContentPart → Except String ModelResult)
    (instruction originalImage : String)
    (referenceImages : Option (List String)) (maskImage : Option String) :
    (vercelEditHandler method env u instruction originalImage referenceImages maskImage).2 ≤ 1 := by
  unfold vercelEditHandler
  repeat' split
  all_goals simp

/-- Upstream-call bound for the serverless segment handler. -/
theorem vercelSegmentHandler_calls_le_one {α : Type} (method : String) (env : Option String)
    (u : String → List ContentPart → Except String ModelResult)
    (parse : String → Except String α) (image query : String) :
    (vercelSegmentHandler method env u parse image query).2 ≤ 1 := by
  unfold vercelSegmentHandler
  repeat' split
  all_goals simp

/-- Upstream-call bound for the standalone generate route. -/
theorem serverGenerateHandler_calls_le_one (env : Option String)
    (su : String → List ContentPart → Except String SdkResult)
    (prompt : String) (referenceImages : Option (List String)) :
    (serverGenerateHandler env su prompt referenceImages).2 ≤ 1 := by
  unfold serverGenerateHandler
  repeat' split
  all_goals simp

/-- Upstream-call bound for the standalone edit route. -/
theorem serverEditHandler_calls_le_one (env : Option String)
    (su : String → List ContentPart → Except String SdkResult)
    (instruction originalImage : String)
    (referenceImages : Option (List String)) (maskImage : Option String) :
    (serverEditHandler env su instruction originalImage referenceImages maskImage).2 ≤ 1 := by
  unfold serverEditHandler
  repeat' split
  all_goals simp

/-- Upstream-call bound for the standalone segment route. -/
theorem serverSegmentHandler_calls_le_one {α : Type} (env : Option String)
    (su : String → List ContentPart → Except String SdkResult)
    (parse : String → Except String α) (image query : String) :
    (serverSegmentHandler env su parse image query).2 ≤ 1 := by
  unfold serverSegmentHandler
  repeat' split
  all_goals simp

/-- C7 (corrected): a missing credential or an upstream rejection yields a
500 whose body carries the raw message; a malformed response shape (no
candidates) likewise yields a 500; every handler invokes the upstream at
most once (nothing is retried); the one exception to the 500 rule is the
serverless segment handler, which answers a JSON-parse failure of the
upstream text with status 200 and the raw text. -/
theorem C7_failures_500_no_retry {α : Type}
    (method k prompt instruction originalImage image query m t mp : String)
    (env : Option String)
    (referenceImages : Option (List String)) (maskImage : Option String)
    (u uc ut w : String → List ContentPart → Except String ModelResult)
    (su suc sw : String → List ContentPart → Except String SdkResult)
    (parse : String → Except String α)
    (r rt : ModelResult) (rest : List ContentPart)
    (hk : k ≠ "")
    (hu : ∀ mid c, u mid c = Except.error m)
    (hsu : ∀ mid c, su mid c = Except.error m)
    (huc : ∀ mid c, uc mid c = Except.ok r)
    (hsuc : ∀ mid c, suc mid c = Except.ok ⟨r⟩)
    (hr : r.candidates = [])
    (hut : ∀ mid c, ut mid c = Except.ok rt)
    (hrt : firstCandidateParts rt = Except.ok (ContentPart.text t :: rest))
    (hpt : parse t = Except.error mp) :
    vercelGenerateHandler "POST" (some k) u prompt referenceImages
        = (ImagesResponse.err 500 m, 1)
    ∧ vercelEditHandler "POST" (some k) u instruction originalImage referenceImages maskImage
        = (ImagesResponse.err 500 m, 1)
    ∧ vercelSegmentHandler "POST" (some k) u parse image query
        = (SegmentResponse.err 500 m, 1)
    ∧ serverGenerateHandler (some k) su prompt referenceImages
        = (ImagesResponse.err 500 m, 1)
    ∧ serverEditHandler (some k) su instruction originalImage referenceImages maskImage
        = (ImagesResponse.err 500 m, 1)
    ∧ serverSegmentHandler (some k) su parse image query
        = (SegmentResponse.err 500 m, 1)
    ∧ vercelGenerateHandler "POST" (some k) uc prompt referenceImages
        = (ImagesResponse.err 500 candidatesTypeErrorMsg, 1)
    ∧ vercelEditHandler "POST" (some k) uc instruction originalImage referenceImages maskImage
        = (ImagesResponse.err 500 candidatesTypeErrorMsg, 1)
    ∧ vercelSegmentHandler "POST" (some k) uc parse image query
        = (SegmentResponse.err 500 candidatesTypeErrorMsg, 1)
    ∧ serverGenerateHandler (some k) suc prompt referenceImages
        = (ImagesResponse.err 500 candidatesTypeErrorMsg, 1)
    ∧ serverEditHandler (some k) suc instruction originalImage referenceImages maskImage
        = (ImagesResponse.err 500 candidatesTypeErrorMsg, 1)
    ∧ serverSegmentHandler (some k) suc parse image query
        = (SegmentResponse.err 500 candidatesTypeErrorMsg, 1)
    ∧ vercelGenerateHandler "POST" none w prompt referenceImages
        = (ImagesResponse.err 500 apiKeyErrorMsg, 0)
    ∧ serverSegmentHandler none sw parse image query
        = (SegmentResponse.err 500 apiKeyErrorMsg, 0)
    ∧ (vercelGenerateHandler method env w prompt referenceImages).2 ≤ 1
    ∧ (vercelEditHandler method env w instruction originalImage referenceImages maskImage).2 ≤ 1
    ∧ (vercelSegmentHandler method env w parse image query).2 ≤ 1
    ∧ (serverGenerateHandler env sw prompt referenceImages).2 ≤ 1
    ∧ (serverEditHandler env sw instruction originalImage referenceImages maskImage).2 ≤ 1
    ∧ (serverSegmentHandler env sw parse image query).2 ≤ 1
    ∧ vercelSegmentHandler "POST" (some k) ut parse image query
        = (SegmentResponse.sendOk (some t), 1)
    ∧ segmentStatus (vercelSegmentHandler "POST" (some k) ut parse image query).1 = 200 := by
  have hbeq : (k == "") = false := by simpa using hk
  refine ⟨?_, ?_, ?_, ?_, ?_, ?_, ?_, ?_, ?_, ?_, ?_, ?_, rfl, rfl,
    vercelGenerateHandler_calls_le_one method env w prompt referenceImages,
    vercelEditHandler_calls_le_one method env w instruction originalImage referenceImages maskImage,
    vercelSegmentHandler_calls_le_one method env w parse image query,
    serverGenerateHandler_calls_le_one env sw prompt referenceImages,
    serverEditHandler_calls_le_one env sw instruction originalImage referenceImages maskImage,
    serverSegmentHandler_calls_le_one env sw parse image query, ?_, ?_⟩
  · simp [vercelGenerateHandler, getApiKey, hbeq, hu]
  · simp [vercelEditHandler, getApiKey, hbeq, hu]
  · simp [vercelSegmentHandler, getApiKey, hbeq, hu]
  · simp [serverGenerateHandler, getApiKey, hbeq, hsu]
  · simp [serverEditHandler, getApiKey, hbeq, hsu]
  · simp [serverSegmentHandler, getApiKey, hbeq, hsu]
  · simp [vercelGenerateHandler, getApiKey, hbeq, huc, firstCandidateParts, hr]
  · simp [vercelEditHandler, getApiKey, hbeq, huc, firstCandidateParts, hr]
  · simp [vercelSegmentHandler, getApiKey, hbeq, huc, firstCandidateParts, hr]
  · simp [serverGenerateHandler, getApiKey, hbeq, hsuc, firstCandidateParts, hr]
  · simp [serverEditHandler, getApiKey, hbeq, hsuc, firstCandidateParts, hr]
  · simp [serverSegmentHandler, getApiKey, hbeq, hsuc, firstCandidateParts, hr]
  · simp [vercelSegmentHandler, getApiKey, hbeq, hut, hrt, firstPartText, partText,
      jsToString, hpt]
  · simp [vercelSegmentHandler, getApiKey, hbeq, hut, hrt, firstPartText, partText,
      jsToString, hpt, segmentStatus]

/-- C7 counterexample: a concrete parse failure at the serverless segment
handler yields status 200 with the raw text, not the claimed 500. -/
theorem C7_claim_counterexample :
    vercelSegmentHandler "POST" (some "key")
        (fun _ _ => Except.ok ⟨[⟨⟨[ContentPart.text "raw"]⟩⟩]⟩)
        (fun _ => (Except.error "SyntaxError" : Except String Nat)) "img" "q"
      = (SegmentResponse.sendOk (some "raw"), 1)
    ∧ segmentStatus (SegmentResponse.sendOk (some "raw") : SegmentResponse Nat) = 200
    ∧ (200 : Nat) ≠ 500 := ⟨rfl, rfl, by decide⟩

/-- C7 witness: the amended theorem applied at concrete failing upstreams. -/
theorem C7_failures_500_no_retry_witness :
    vercelGenerateHandler "POST" (some "key") (fun _ _ => Except.error "boom") "p" none
      = (ImagesResponse.err 500 "boom", 1) :=
  (C7_failures_500_no_retry "GET" "key" "p" "i" "o" "img" "q" "boom" "raw" "SyntaxError"
    (some "e") none none
    (fun _ _ => Except.error "boom") (fun _ _ => Except.ok ⟨[]⟩)
    (fun _ _ => Except.ok ⟨[⟨⟨[ContentPart.text "raw"]⟩⟩]⟩)
    (fun _ _ => Except.error "w")
    (fun _ _ => Except.error "boom") (fun _ _ => Except.ok ⟨⟨[]⟩⟩)
    (fun _ _ => Except.error "sw")
    (fun _ => (Except.error "SyntaxError" : Except String Nat))
    ⟨[]⟩ ⟨[⟨⟨[ContentPart.text "raw"]⟩⟩]⟩ []
    (by decide) (fun _ _ => rfl) (fun _ _ => rfl) (fun _ _ => rfl) (fun _ _ => rfl)
    rfl (fun _ _ => rfl) rfl rfl).1

/-- C8: parseGeminiError is total over the five types, keeps the raw
message, and classifies by the four indicator groups in the fixed source
order, falling through to unknown. -/
theorem C8_parseGeminiError_cascade (e : JsError) :
    ((parseGeminiError e).type = GeminiErrorType.api_key_invalid
      ∨ (parseGeminiError e).type = GeminiErrorType.quota_exceeded
      ∨ (parseGeminiError e).type = GeminiErrorType.network_error
      ∨ (parseGeminiError e).type = GeminiErrorType.invalid_request
      ∨ (parseGeminiError e).type = GeminiErrorType.unknown_error)
    ∧ (parseGeminiError e).message = errMessage e
    ∧ (credIndicator e = true →
        (parseGeminiError e).type = GeminiErrorType.api_key_invalid)
    ∧ (credIndicator e = false → quotaIndicator e = true →
        (parseGeminiError e).type = GeminiErrorType.quota_exceeded)
    ∧ (credIndicator e = false → quotaIndicator e = false → networkIndicator e = true →
        (parseGeminiError e).type = GeminiErrorType.network_error)
    ∧ (credIndicator e = false → quotaIndicator e = false → networkIndicator e = false →
        invalidIndicator e = true →
        (parseGeminiError e).type = GeminiErrorType.invalid_request)
    ∧ (credIndicator e = false → quotaIndicator e = false → networkIndicator e = false →
        invalidIndicator e = false →
        (parseGeminiError e).type = GeminiErrorType.unknown_error) := by
  cases h1 : credIndicator e <;> cases h2 : quotaIndicator e <;>
    cases h3 : networkIndicator e <;> cases h4 : invalidIndicator e <;>
      simp [parseGeminiError, h1, h2, h3, h4]

/-- C8 witness: a quota error is classified second in the cascade. -/
theorem C8_parseGeminiError_cascade_witness :
    (parseGeminiError ⟨some "QUOTA_EXCEEDED", "", none, none⟩).type
      = GeminiErrorType.quota_exceeded :=
  (C8_parseGeminiError_cascade ⟨some "QUOTA_EXCEEDED", "", none, none⟩).2.2.2.1
    (by decide) (by decide)
